import Mathlib

/-!
# Verification of the user/post microservices event-replication protocol

Shallow embedding of the two services of this repository:

* the User Service (`controller/userController.js` together with its
  `utils/rabbitmq.js` publisher), and
* the Post Service consumer (`utils/rabbitmq.js` / `consumer.js`).

JavaScript objects become Lean structures with `Option` fields for
possibly-`undefined` members; MongoDB collections become lists of documents;
the broker queue becomes a list of (queue-name, body) pairs; code that can
throw returns `Except`.  Every definition is translated from the source file
named in its doc comment.
-/

namespace Microservices

/-! ## Wire model

The queue carries byte buffers produced by `JSON.stringify` and decoded by
`JSON.parse`.  The serialized form is modelled abstractly: a body is either a
well-formed serialization of an event object, or a text that is not valid
JSON (on which `JSON.parse` throws). -/

/-- The event object travelling on the queue.  JavaScript destructuring
`const { userId, email, name, event } = message` yields `undefined` for
absent members, hence `Option` fields. -/
structure EventMessage where
  userId : Option String
  email : Option String
  name : Option String
  event : Option String
deriving Repr, DecidableEq

/-- A raw message body on the queue: either the serialization of an event
object or ill-formed text. -/
inductive RawBody
  | invalid (text : String)
  | valid (msg : EventMessage)
deriving Repr, DecidableEq

/-- Model of `JSON.parse(message.content.toString())`: throws (here `none`) on an
ill-formed body, otherwise yields the decoded object. -/
def jsonParse : RawBody → Option EventMessage
  | .invalid _ => none
  | .valid m => some m

/-! ## Post Service data model -/

/-- Modelled from the spec: the Post Service's replicated ShadowUserRecord
(`models/UserModel.js` of the Post Service is not part of the sources, only
its callers are): identity (same id as canonical), email, display name, no
credential.  `email`/`name` are `Option` because a created document only
holds the members that were defined in the object passed to `create`. -/
structure ShadowUser where
  _id : String
  email : Option String
  name : Option String
deriving Repr, DecidableEq

/-- A Post document (`models/postSchema.js`): title, content, reference to
the owning user id, creation timestamp. -/
structure Post where
  title : String
  content : String
  userId : String
  createdAt : Nat
deriving Repr, DecidableEq

/-- The Post Service's database: the shadow user collection and the post
collection. -/
structure PostDb where
  users : List ShadowUser
  posts : List Post
deriving Repr, DecidableEq

/-- Number of shadow documents with the given `_id`.  MongoDB's unique index
on `_id` keeps this at most 1 in every reachable store. -/
def countById (users : List ShadowUser) (i : String) : Nat :=
  (users.filter (fun u => u._id == i)).length

/-- Model of `UserModel.create({ _id, email, name })` in the Post Service: inserting a
document whose `_id` already exists fails with a duplicate-key error
(E11000); otherwise the document is appended to the collection. -/
def userModelCreate (db : PostDb) (doc : ShadowUser) : Except String PostDb :=
  if db.users.any (fun u => u._id == doc._id) then
    .error "E11000 duplicate key error"
  else
    .ok { db with users := db.users ++ [doc] }

/-- Remove the first document with the given `_id` (MongoDB deletes at most
one document on `findOneAndDelete`). -/
def removeFirstById : List ShadowUser → String → List ShadowUser
  | [], _ => []
  | u :: rest, i => if u._id == i then rest else u :: removeFirstById rest i

/-- Model of `UserModel.findOneAndDelete({ _id: userId })`: deletes the matching
document if any; a missing document is not an error (the call resolves with
`null`).  A `userId` of `undefined` matches no document. -/
def userModelFindOneAndDelete (db : PostDb) (i : Option String) : PostDb :=
  match i with
  | none => db
  | some i => { db with users := removeFirstById db.users i }

/-! ## Post Service consumer (`utils/rabbitmq.js` and `consumer.js`) -/

/-- The try-block of `handleUserEvent` in `consumer.js`: on `user_signup`
create a shadow document `{ _id: userId, email, name }` (when `userId` is
`undefined`, Mongoose generates a fresh id, supplied here as `fresh`); on
`user_delete` delete by id; any other tag (or a missing `event` member)
matches neither branch and does nothing. -/
def handleUserEventTry (fresh : String) (db : PostDb) (msg : EventMessage) :
    Except String PostDb :=
  match msg.event with
  | some t =>
    if t == "user_signup" then
      userModelCreate db ⟨msg.userId.getD fresh, msg.email, msg.name⟩
    else if t == "user_delete" then
      .ok (userModelFindOneAndDelete db msg.userId)
    else
      .ok db
  | none => .ok db

/-- The full `handleUserEvent` wraps its body in try/catch: an error from the store is
logged (`true` in the second component) and swallowed, never rethrown, and
the store is left as it was when the error was raised. -/
def handleUserEvent (fresh : String) (db : PostDb) (msg : EventMessage) :
    PostDb × Bool :=
  match handleUserEventTry fresh db msg with
  | .ok db2 => (db2, false)
  | .error _ => (db, true)

/-- The externally observable steps of the consume callback registered in
`consumeMessages`, in execution order. -/
inductive ConsumeStep
  | logReceived
  /-- Step where `handler(content)` is invoked; being an `async` function called
  without `await`, its body runs synchronously only up to its first `await`
  (the first store call) and then suspends. -/
  | handlerStart
  /-- Step where `channel.ack(message)` runs immediately after the handler suspends. -/
  | ack
  /-- The event loop resumes the handler: the store mutation completes (or
  its error is caught and logged) only after the acknowledgement. -/
  | handlerFinish
deriving Repr, DecidableEq

/-- Step order of the consume callback on a body that parses.  The
acknowledgement precedes the handler's completion because the callback does
not await `handler(content)`. -/
def consumeDeliveryTrace : List ConsumeStep :=
  [.logReceived, .handlerStart, .ack, .handlerFinish]

/-- Result of processing one delivery: the store after the handler has run
to completion, whether the handler caught and logged an error, and the step
order observed. -/
structure DeliveryResult where
  db : PostDb
  errorLogged : Bool
  steps : List ConsumeStep
deriving Repr, DecidableEq

/-- One delivery processed by the callback that `consumeMessages` registers
with `channel.consume("user_events", ...)`:

```js
const content = JSON.parse(message.content.toString());
console.log("Received message:", content);
handler(content);       // async, not awaited
channel.ack(message);   // acknowledge message
```

`JSON.parse` throws synchronously on an ill-formed body; no try/catch inside
the callback guards it (the try/catch in `consumeMessages` wraps only the
registration of the callback, which has already returned by delivery time),
so the exception escapes the callback and the message is never acknowledged:
modelled as `.error`.  On a body that parses, the handler is started, the
message is acknowledged without awaiting the handler, and the handler's
store work finishes afterwards, per `consumeDeliveryTrace`. -/
def processDelivery (fresh : String) (db : PostDb) (body : RawBody) :
    Except String DeliveryResult :=
  match jsonParse body with
  | none => .error "SyntaxError: Unexpected token in JSON"
  | some content =>
      let r := handleUserEvent fresh db content
      .ok ⟨r.1, r.2, consumeDeliveryTrace⟩

/-- Queue name the Post Service asserts and consumes
(`channel.assertQueue("user_events")`, `channel.consume("user_events", ...)`). -/
def consumeQueue : String := "user_events"

/-! ## User Service data model and input validators
(`controller/userController.js`) -/

/-- A canonical user document as the `signup` controller creates it:
`UserModal.create({ email, password: hashedPassword, name })`, to which
MongoDB adds the generated `_id`. -/
structure UserRecord where
  _id : String
  email : String
  password : String
  name : String
deriving Repr, DecidableEq

/-- Abstract model of `bcrypt.hash(password, 12)`: the claims only need that
the stored credential field is the hash of the submitted password, so the
hash is modelled as a deterministic tagging function. -/
def bcryptHash (password : String) : String :=
  "$2a$12$" ++ password

/-- JavaScript regular-expression class whitespace test, as used by the
`[^\s@]` atoms of the email pattern. -/
def jsWhitespace (c : Char) : Bool :=
  c == ' ' || c == '\t' || c == '\n' || c == '\r' ||
  c == '\x0b' || c == '\x0c' ||
  c == '\u00A0' || c == '\u1680' ||
  decide (0x2000 ≤ c.toNat ∧ c.toNat ≤ 0x200a) ||
  c == '\u2028' || c == '\u2029' ||
  c == '\u202F' || c == '\u205F' || c == '\u3000' || c == '\uFEFF'

/-- One character admitted by the class of the email pattern: neither
whitespace nor the at sign. -/
def emailAtomChar (c : Char) : Bool :=
  !jsWhitespace c && c != '@'

/-- True when some dot occurs at a non-last position of the list. -/
def dotBeforeLast : List Char → Bool
  | [] => false
  | [_] => false
  | c :: rest => c == '.' || dotBeforeLast rest

/-- True when the list contains a dot with at least one character before it
and at least one after it, as required of the domain part by the anchored
pattern. -/
def hasInteriorDot : List Char → Bool
  | [] => false
  | _ :: rest => dotBeforeLast rest

/-- Split of a character list at its unique at sign into (local part,
domain); `none` when the at sign occurs zero or several times — the
pattern's parts both exclude the at sign, so a match has exactly one. -/
def breakAtSign : List Char → Option (List Char × List Char)
  | [] => none
  | c :: rest =>
      if c == '@' then
        if rest.contains '@' then none else some ([], rest)
      else
        match breakAtSign rest with
        | none => none
        | some (localPart, domain) => some (c :: localPart, domain)

/-- Model of the controller's `isValidEmail`: the anchored test of the
pattern `[^\s@]+@[^\s@]+\.[^\s@]+` — exactly one at sign, a nonempty
whitespace-free local part, and a whitespace-free domain containing an
interior dot. -/
def isValidEmail (email : String) : Bool :=
  match breakAtSign email.data with
  | some (localPart, domain) =>
      !localPart.isEmpty && localPart.all emailAtomChar &&
      !domain.isEmpty && domain.all emailAtomChar &&
      hasInteriorDot domain
  | none => false

/-- Model of the controller's `isValidName`:
`typeof name === "string" && name.length >= 3 && name.length <= 15`.
A missing member (`undefined`) fails the typeof test. -/
def isValidName : Option String → Bool
  | none => false
  | some n => decide (3 ≤ n.length ∧ n.length ≤ 15)

/-- Line terminators that the dot of a JavaScript pattern never matches. -/
def lineTerminator (c : Char) : Bool :=
  c == '\n' || c == '\r' || c == '\u2028' || c == '\u2029'

/-- Model of the controller's `isValidPassword`: the anchored test of
`(?=.*[a-zA-Z])(?=.*\d)(?=.*[\W_]).{6,15}` — no line terminator, length 6 to
15, at least one ASCII letter, one digit and one character outside
`[a-zA-Z0-9]` (the class of non-word characters together with the
underscore).  On `undefined` the test coerces its argument to the string
"undefined", which has no digit, so the result is false either way. -/
def isValidPassword : Option String → Bool
  | none => false
  | some p =>
      p.data.all (fun c => !lineTerminator c) &&
      decide (6 ≤ p.length ∧ p.length ≤ 15) &&
      p.data.any Char.isAlpha &&
      p.data.any Char.isDigit &&
      p.data.any (fun c => !(c.isAlpha || c.isDigit))

/-! ## User Service broker plumbing (`utils/rabbitmq.js` of the User
Service): module-global `channel`/`connection`, lazily created on first
publish. -/

/-- An amqplib channel handle; `usable` is false once the underlying
connection or channel has died (a stale handle on which `sendToQueue`
throws). -/
structure Channel where
  usable : Bool
deriving Repr, DecidableEq

/-- The publisher-side world: the cached module-global channel (if any), the
broker queue contents as (queue name, body) pairs, and how many broker
connections have been opened so far. -/
structure BrokerState where
  channel : Option Channel
  queue : List (String × RawBody)
  connectCount : Nat
deriving Repr, DecidableEq

/-- Model of the User Service `connectQueue`: `amqp.connect` +
`createChannel` + `assertQueue("user_events")`; when the broker is
unreachable the error is logged and rethrown and the globals are left
unassigned.  A successful connect yields a fresh usable channel, stored in
the module global. -/
def connectQueue (brokerUp : Bool) (st : BrokerState) :
    Except String (BrokerState × Channel) :=
  if brokerUp then
    let ch : Channel := ⟨true⟩
    .ok ({ st with channel := some ch, connectCount := st.connectCount + 1 }, ch)
  else
    .error "RabbitMQ connection error"

/-- Model of `channel.sendToQueue(queueName, Buffer.from(JSON.stringify(message)))`:
on a usable channel the serialized body is appended to the named queue; on a
stale channel the call throws and nothing is enqueued. -/
def sendToQueue (ch : Channel) (st : BrokerState) (queueName : String)
    (msg : EventMessage) : Except String Unit × BrokerState :=
  if ch.usable then
    (.ok (), { st with queue := st.queue ++ [(queueName, RawBody.valid msg)] })
  else
    (.error "Channel closed", st)

/-- Model of the User Service `publishMessage`:

```js
if (!channel) { channel = await connectQueue(); }
await channel.sendToQueue(queueName, Buffer.from(JSON.stringify(message)));
```

Only a missing channel triggers a (lazy) connect; an existing but stale
channel is used as-is, so its send error propagates (and is rethrown by the
catch) with no reconnection and no reset of the cached channel. -/
def publishMessage (brokerUp : Bool) (st : BrokerState) (queueName : String)
    (msg : EventMessage) : Except String Unit × BrokerState :=
  match st.channel with
  | none =>
      match connectQueue brokerUp st with
      | .error e => (.error e, st)
      | .ok (st2, ch) => sendToQueue ch st2 queueName msg
  | some ch => sendToQueue ch st queueName msg

/-! ## User Service controllers -/

/-- The JSON body of a controller response: HTTP status, the `message`
member when present, and the user document carried by the body (the
`result` member of signup's 201 body, or the whole body of
`getUserById`'s 200). -/
structure ApiResponse where
  status : Nat
  message : Option String
  result : Option UserRecord
deriving Repr, DecidableEq

/-- Database and broker side effects of a controller, in execution order. -/
inductive Effect
  /-- `UserModal.create(...)` committed this document. -/
  | dbCreateUser (u : UserRecord)
  /-- `UserModal.findByIdAndDelete(id)` committed. -/
  | dbDeleteUser (i : String)
  /-- `publishMessage(queue, msg)` was attempted (it may still fail). -/
  | publishAttempt (queue : String) (msg : EventMessage)
deriving Repr, DecidableEq

/-- What a controller run produced: the user collection and broker state
afterwards, the HTTP response, and the effect order. -/
structure ControllerResult where
  db : List UserRecord
  broker : BrokerState
  resp : ApiResponse
  trace : List Effect
deriving Repr, DecidableEq

/-- The fields of `req.body` that `signup` destructures; each may be absent. -/
structure SignupRequest where
  email : Option String
  password : Option String
  name : Option String
deriving Repr, DecidableEq

/-- Email guard of `signup`: `!email || !email.includes("@") || !isValidEmail(email)`
(an absent or empty email is falsy; `includes("@")` and the pattern test
otherwise). -/
def signupEmailOk : Option String → Bool
  | none => false
  | some e => !e.data.isEmpty && e.data.contains '@' && isValidEmail e

/-- Model of `UserModal.findOne({ email })`. -/
def findOneByEmail (db : List UserRecord) (e : String) : Option UserRecord :=
  db.find? (fun u => u.email == e)

/-- Model of `UserModal.findOne({ name })`. -/
def findOneByName (db : List UserRecord) (n : String) : Option UserRecord :=
  db.find? (fun u => u.name == n)

/-- Model of `UserModal.findById(id)`. -/
def findById (db : List UserRecord) (i : String) : Option UserRecord :=
  db.find? (fun u => u._id == i)

/-- Remove the first user document with the given `_id`
(`UserModal.findByIdAndDelete(id)`). -/
def removeFirstUserById : List UserRecord → String → List UserRecord
  | [], _ => []
  | u :: rest, i => if u._id == i then rest else u :: removeFirstUserById rest i

/-- Queue name every `publishMessage` call site of the User Service passes,
and that its `connectQueue` asserts. -/
def publishQueue : String := "user_events"

/-- Model of the `signup` controller.  `newId` is the `_id` MongoDB
generates for the created document; `brokerUp` tells whether `amqp.connect`
would succeed.  Control flow of the source, in order: email guard, name
guard, password guard, duplicate-email lookup, duplicate-name lookup, hash,
create, publish; a publish error reaches the catch and yields the generic
500 while the created document stays committed.  The `getD ""` defaults are
unreachable: the guards admit only present fields. -/
def signup (db : List UserRecord) (broker : BrokerState) (req : SignupRequest)
    (newId : String) (brokerUp : Bool) : ControllerResult :=
  if !signupEmailOk req.email then
    ⟨db, broker, ⟨400, some "Invalid email format", none⟩, []⟩
  else if !isValidName req.name then
    ⟨db, broker,
      ⟨400, some "Name must be between 3 and 15 characters long", none⟩, []⟩
  else if !isValidPassword req.password then
    ⟨db, broker,
      ⟨400, some ("Password must be between 6 and 15 characters long, " ++
        "include at least one letter, one number, and one special character"),
        none⟩, []⟩
  else
    let email := req.email.getD ""
    let name := req.name.getD ""
    let password := req.password.getD ""
    match findOneByEmail db email with
    | some _ =>
        ⟨db, broker, ⟨400, some "User with this email already exists", none⟩, []⟩
    | none =>
    match findOneByName db name with
    | some _ =>
        ⟨db, broker, ⟨400, some "User with this name already exists", none⟩, []⟩
    | none =>
        let result : UserRecord := ⟨newId, email, bcryptHash password, name⟩
        let db2 := db ++ [result]
        let msg : EventMessage :=
          ⟨some result._id, some result.email, some result.name,
            some "user_signup"⟩
        let pub := publishMessage brokerUp broker publishQueue msg
        let trace := [Effect.dbCreateUser result,
          Effect.publishAttempt publishQueue msg]
        match pub.1 with
        | .error _ =>
            ⟨db2, pub.2, ⟨500, some "Something went wrong", none⟩, trace⟩
        | .ok _ =>
            ⟨db2, pub.2, ⟨201, none, some result⟩, trace⟩

/-- Model of the `deleteUser` controller: look the user up (404 when
absent), delete it, publish `{ userId: id, event: "user_delete" }`, answer
200; a publish error reaches the catch and yields the generic 500 while the
deletion stays committed. -/
def deleteUser (db : List UserRecord) (broker : BrokerState) (i : String)
    (brokerUp : Bool) : ControllerResult :=
  match findById db i with
  | none => ⟨db, broker, ⟨404, some "User not found", none⟩, []⟩
  | some _ =>
      let db2 := removeFirstUserById db i
      let msg : EventMessage := ⟨some i, none, none, some "user_delete"⟩
      let pub := publishMessage brokerUp broker publishQueue msg
      let trace := [Effect.dbDeleteUser i,
        Effect.publishAttempt publishQueue msg]
      match pub.1 with
      | .error _ =>
          ⟨db2, pub.2, ⟨500, some "Something went wrong", none⟩, trace⟩
      | .ok _ =>
          ⟨db2, pub.2, ⟨200, some "User deleted successfully", none⟩, trace⟩

/-- Model of the `getUserById` controller: `UserModal.findById(id)`, 404
when absent, otherwise `res.status(200).json(user)` — the stored document
is the response body, with no field filtered out. -/
def getUserById (db : List UserRecord) (i : String) : ApiResponse :=
  match findById db i with
  | none => ⟨404, some "User not found", none⟩
  | some u => ⟨200, none, some u⟩

/-! ## Helper lemmas on the shadow store -/

theorem countById_append (l1 l2 : List ShadowUser) (i : String) :
    countById (l1 ++ l2) i = countById l1 i + countById l2 i := by
  simp [countById, List.filter_append]

theorem countById_eq_zero_iff (l : List ShadowUser) (i : String) :
    countById l i = 0 ↔ l.any (fun u => u._id == i) = false := by
  simp [countById, List.length_eq_zero, List.filter_eq_nil_iff, List.any_eq_true]

theorem countById_cons (u : ShadowUser) (l : List ShadowUser) (i : String) :
    countById (u :: l) i = (if u._id == i then 1 else 0) + countById l i := by
  by_cases h : (u._id == i) = true <;> simp [countById, List.filter_cons, h]
  omega

theorem countById_pos_of_any (l : List ShadowUser) (i : String)
    (h : l.any (fun u => u._id == i) = true) : 1 ≤ countById l i := by
  by_contra hc
  have h0 : countById l i = 0 := by omega
  have hf := (countById_eq_zero_iff l i).1 h0
  rw [hf] at h
  exact Bool.false_ne_true h

theorem removeFirstById_of_absent (l : List ShadowUser) (i : String)
    (h : countById l i = 0) : removeFirstById l i = l := by
  induction l with
  | nil => rfl
  | cons u rest ih =>
      rw [countById_cons] at h
      by_cases hu : (u._id == i) = true
      · rw [if_pos hu] at h
        omega
      · rw [if_neg hu] at h
        simp only [Nat.zero_add] at h
        simp [removeFirstById, hu, ih h]

theorem countById_removeFirstById (l : List ShadowUser) (i : String)
    (h : countById l i ≤ 1) : countById (removeFirstById l i) i = 0 := by
  induction l with
  | nil => rfl
  | cons u rest ih =>
      rw [countById_cons] at h
      by_cases hu : (u._id == i) = true
      · rw [if_pos hu] at h
        have hr : countById rest i = 0 := by omega
        simp [removeFirstById, hu, hr]
      · rw [if_neg hu] at h
        simp only [Nat.zero_add] at h
        simp only [removeFirstById]
        rw [if_neg hu, countById_cons, if_neg hu, ih h]

/-- Evaluation of `handleUserEvent` on a signup event whose fields are all
present: a duplicate id makes the create fail (error caught and logged, no
change), a new id appends the shadow document. -/
theorem handleUserEvent_signup_eval (fresh i e n : String) (db : PostDb) :
    handleUserEvent fresh db ⟨some i, some e, some n, some "user_signup"⟩ =
      if db.users.any (fun u => u._id == i) then (db, true)
      else ({ db with users := db.users ++ [⟨i, some e, some n⟩] }, false) := by
  by_cases h : (db.users.any fun u => u._id == i) = true <;>
    simp [handleUserEvent, handleUserEventTry, userModelCreate, h]

/-! ## Helper lemmas on the User Service controllers -/

/-- The document `signup` creates for a given request and generated id. -/
def signupDoc (req : SignupRequest) (newId : String) : UserRecord :=
  ⟨newId, req.email.getD "", bcryptHash (req.password.getD ""), req.name.getD ""⟩

/-- The signup event `signup` publishes. -/
def signupMsg (req : SignupRequest) (newId : String) : EventMessage :=
  ⟨some newId, some (req.email.getD ""), some (req.name.getD ""),
    some "user_signup"⟩

/-- The delete event `deleteUser` publishes. -/
def deleteMsg (i : String) : EventMessage :=
  ⟨some i, none, none, some "user_delete"⟩

theorem signup_reject_email (db : List UserRecord) (broker : BrokerState)
    (req : SignupRequest) (newId : String) (up : Bool)
    (h : signupEmailOk req.email = false) :
    signup db broker req newId up =
      ⟨db, broker, ⟨400, some "Invalid email format", none⟩, []⟩ := by
  simp [signup, h]

theorem signup_reject_name (db : List UserRecord) (broker : BrokerState)
    (req : SignupRequest) (newId : String) (up : Bool)
    (h1 : signupEmailOk req.email = true) (h2 : isValidName req.name = false) :
    signup db broker req newId up =
      ⟨db, broker,
        ⟨400, some "Name must be between 3 and 15 characters long", none⟩,
        []⟩ := by
  simp [signup, h1, h2]

theorem signup_reject_password (db : List UserRecord) (broker : BrokerState)
    (req : SignupRequest) (newId : String) (up : Bool)
    (h1 : signupEmailOk req.email = true) (h2 : isValidName req.name = true)
    (h3 : isValidPassword req.password = false) :
    signup db broker req newId up =
      ⟨db, broker,
        ⟨400, some ("Password must be between 6 and 15 characters long, " ++
          "include at least one letter, one number, and one special character"),
          none⟩, []⟩ := by
  simp [signup, h1, h2, h3]

theorem signup_reject_dup_email (db : List UserRecord) (broker : BrokerState)
    (req : SignupRequest) (newId : String) (up : Bool) (u : UserRecord)
    (h1 : signupEmailOk req.email = true) (h2 : isValidName req.name = true)
    (h3 : isValidPassword req.password = true)
    (h4 : findOneByEmail db (req.email.getD "") = some u) :
    signup db broker req newId up =
      ⟨db, broker, ⟨400, some "User with this email already exists", none⟩,
        []⟩ := by
  simp [signup, h1, h2, h3, h4]

theorem signup_reject_dup_name (db : List UserRecord) (broker : BrokerState)
    (req : SignupRequest) (newId : String) (up : Bool) (u : UserRecord)
    (h1 : signupEmailOk req.email = true) (h2 : isValidName req.name = true)
    (h3 : isValidPassword req.password = true)
    (h4 : findOneByEmail db (req.email.getD "") = none)
    (h5 : findOneByName db (req.name.getD "") = some u) :
    signup db broker req newId up =
      ⟨db, broker, ⟨400, some "User with this name already exists", none⟩,
        []⟩ := by
  simp [signup, h1, h2, h3, h4, h5]

theorem signup_create_publish_error (db : List UserRecord)
    (broker : BrokerState) (req : SignupRequest) (newId : String) (up : Bool)
    (err : String)
    (h1 : signupEmailOk req.email = true) (h2 : isValidName req.name = true)
    (h3 : isValidPassword req.password = true)
    (h4 : findOneByEmail db (req.email.getD "") = none)
    (h5 : findOneByName db (req.name.getD "") = none)
    (hp : (publishMessage up broker publishQueue (signupMsg req newId)).1 =
      .error err) :
    signup db broker req newId up =
      ⟨db ++ [signupDoc req newId],
        (publishMessage up broker publishQueue (signupMsg req newId)).2,
        ⟨500, some "Something went wrong", none⟩,
        [Effect.dbCreateUser (signupDoc req newId),
         Effect.publishAttempt publishQueue (signupMsg req newId)]⟩ := by
  simp [signup, signupDoc, signupMsg, h1, h2, h3, h4, h5, hp] at hp ⊢

theorem signup_create_publish_ok (db : List UserRecord)
    (broker : BrokerState) (req : SignupRequest) (newId : String) (up : Bool)
    (h1 : signupEmailOk req.email = true) (h2 : isValidName req.name = true)
    (h3 : isValidPassword req.password = true)
    (h4 : findOneByEmail db (req.email.getD "") = none)
    (h5 : findOneByName db (req.name.getD "") = none)
    (hp : (publishMessage up broker publishQueue (signupMsg req newId)).1 =
      .ok ()) :
    signup db broker req newId up =
      ⟨db ++ [signupDoc req newId],
        (publishMessage up broker publishQueue (signupMsg req newId)).2,
        ⟨201, none, some (signupDoc req newId)⟩,
        [Effect.dbCreateUser (signupDoc req newId),
         Effect.publishAttempt publishQueue (signupMsg req newId)]⟩ := by
  simp [signup, signupDoc, signupMsg, h1, h2, h3, h4, h5, hp] at hp ⊢

theorem deleteUser_not_found (db : List UserRecord) (broker : BrokerState)
    (i : String) (up : Bool) (h : findById db i = none) :
    deleteUser db broker i up =
      ⟨db, broker, ⟨404, some "User not found", none⟩, []⟩ := by
  simp [deleteUser, h]

theorem deleteUser_publish_error (db : List UserRecord) (broker : BrokerState)
    (i : String) (up : Bool) (u : UserRecord) (err : String)
    (h : findById db i = some u)
    (hp : (publishMessage up broker publishQueue (deleteMsg i)).1 =
      .error err) :
    deleteUser db broker i up =
      ⟨removeFirstUserById db i,
        (publishMessage up broker publishQueue (deleteMsg i)).2,
        ⟨500, some "Something went wrong", none⟩,
        [Effect.dbDeleteUser i,
         Effect.publishAttempt publishQueue (deleteMsg i)]⟩ := by
  simp [deleteUser, deleteMsg, h, hp] at hp ⊢

theorem deleteUser_publish_ok (db : List UserRecord) (broker : BrokerState)
    (i : String) (up : Bool) (u : UserRecord)
    (h : findById db i = some u)
    (hp : (publishMessage up broker publishQueue (deleteMsg i)).1 = .ok ()) :
    deleteUser db broker i up =
      ⟨removeFirstUserById db i,
        (publishMessage up broker publishQueue (deleteMsg i)).2,
        ⟨200, some "User deleted successfully", none⟩,
        [Effect.dbDeleteUser i,
         Effect.publishAttempt publishQueue (deleteMsg i)]⟩ := by
  simp [deleteUser, deleteMsg, h, hp] at hp ⊢

/-- Case analysis of a `signup` run: either a 400 rejection that changes
nothing, or the create-then-publish path, with the publish failing or
succeeding. -/
theorem signup_cases (db : List UserRecord) (broker : BrokerState)
    (req : SignupRequest) (newId : String) (up : Bool) :
    (∃ resp, signup db broker req newId up = ⟨db, broker, resp, []⟩ ∧
      resp.status = 400 ∧ resp.message.isSome = true) ∨
    (∃ e, signup db broker req newId up =
      ⟨db ++ [signupDoc req newId],
        (publishMessage up broker publishQueue (signupMsg req newId)).2,
        ⟨500, some "Something went wrong", none⟩,
        [Effect.dbCreateUser (signupDoc req newId),
         Effect.publishAttempt publishQueue (signupMsg req newId)]⟩ ∧
      (publishMessage up broker publishQueue (signupMsg req newId)).1 =
        .error e) ∨
    (signup db broker req newId up =
      ⟨db ++ [signupDoc req newId],
        (publishMessage up broker publishQueue (signupMsg req newId)).2,
        ⟨201, none, some (signupDoc req newId)⟩,
        [Effect.dbCreateUser (signupDoc req newId),
         Effect.publishAttempt publishQueue (signupMsg req newId)]⟩ ∧
      (publishMessage up broker publishQueue (signupMsg req newId)).1 =
        .ok ()) := by
  by_cases h1 : signupEmailOk req.email = true
  case neg =>
    exact Or.inl ⟨_, signup_reject_email db broker req newId up
      (by simpa using h1), rfl, rfl⟩
  by_cases h2 : isValidName req.name = true
  case neg =>
    exact Or.inl ⟨_, signup_reject_name db broker req newId up h1
      (by simpa using h2), rfl, rfl⟩
  by_cases h3 : isValidPassword req.password = true
  case neg =>
    exact Or.inl ⟨_, signup_reject_password db broker req newId up h1 h2
      (by simpa using h3), rfl, rfl⟩
  cases h4 : findOneByEmail db (req.email.getD "") with
  | some u =>
      exact Or.inl ⟨_, signup_reject_dup_email db broker req newId up u
        h1 h2 h3 h4, rfl, rfl⟩
  | none =>
  cases h5 : findOneByName db (req.name.getD "") with
  | some u =>
      exact Or.inl ⟨_, signup_reject_dup_name db broker req newId up u
        h1 h2 h3 h4 h5, rfl, rfl⟩
  | none =>
  cases hp : (publishMessage up broker publishQueue (signupMsg req newId)).1
    with
  | error e =>
      exact Or.inr (Or.inl ⟨e, signup_create_publish_error db broker req newId
        up e h1 h2 h3 h4 h5 hp, rfl⟩)
  | ok v =>
      exact Or.inr (Or.inr ⟨signup_create_publish_ok db broker req newId up
        h1 h2 h3 h4 h5 hp, rfl⟩)

/-- Case analysis of a `deleteUser` run: a 404 that changes nothing, or the
delete-then-publish path, with the publish failing or succeeding. -/
theorem deleteUser_cases (db : List UserRecord) (broker : BrokerState)
    (i : String) (up : Bool) :
    (deleteUser db broker i up =
      ⟨db, broker, ⟨404, some "User not found", none⟩, []⟩) ∨
    (∃ e, deleteUser db broker i up =
      ⟨removeFirstUserById db i,
        (publishMessage up broker publishQueue (deleteMsg i)).2,
        ⟨500, some "Something went wrong", none⟩,
        [Effect.dbDeleteUser i,
         Effect.publishAttempt publishQueue (deleteMsg i)]⟩ ∧
      (publishMessage up broker publishQueue (deleteMsg i)).1 = .error e) ∨
    (deleteUser db broker i up =
      ⟨removeFirstUserById db i,
        (publishMessage up broker publishQueue (deleteMsg i)).2,
        ⟨200, some "User deleted successfully", none⟩,
        [Effect.dbDeleteUser i,
         Effect.publishAttempt publishQueue (deleteMsg i)]⟩ ∧
      (publishMessage up broker publishQueue (deleteMsg i)).1 = .ok ()) := by
  cases h : findById db i with
  | none => exact Or.inl (deleteUser_not_found db broker i up h)
  | some u =>
      cases hp : (publishMessage up broker publishQueue (deleteMsg i)).1 with
      | error e =>
          exact Or.inr (Or.inl ⟨e,
            deleteUser_publish_error db broker i up u e h hp, rfl⟩)
      | ok v =>
          exact Or.inr (Or.inr ⟨deleteUser_publish_ok db broker i up u h hp,
            rfl⟩)

/-- Whatever `publishMessage` does, the queue afterwards holds at most the
old entries plus the one serialized message, sent to the requested queue. -/
theorem publishMessage_queue_sub (up : Bool) (st : BrokerState) (q : String)
    (m : EventMessage) (entry : String × RawBody)
    (h : entry ∈ (publishMessage up st q m).2.queue) :
    entry ∈ st.queue ∨ entry = (q, RawBody.valid m) := by
  rcases st with ⟨ch, qs, cc⟩
  cases ch with
  | none =>
      cases up with
      | false => exact Or.inl h
      | true =>
          simp [publishMessage, connectQueue, sendToQueue] at h ⊢
          tauto
  | some c =>
      rcases c with ⟨u⟩
      cases u with
      | false => exact Or.inl h
      | true =>
          simp [publishMessage, sendToQueue] at h ⊢
          tauto

/-! ## Claim theorems -/

/-- C1: applying a `user_signup` event for a given id to the Post Service's
shadow store is idempotent — under the store invariant that the id occurs at
most once, applying the same event twice leaves exactly one shadow record
with that id (the duplicate insert fails with a caught duplicate-key error,
creating no second record), and the second delivery is still processed by
the consume callback without an escaping error. -/
theorem signup_event_applied_twice_idempotent
    (db : PostDb) (i e n fresh1 fresh2 : String)
    (huniq : countById db.users i ≤ 1) :
    countById (handleUserEvent fresh2
      (handleUserEvent fresh1 db ⟨some i, some e, some n, some "user_signup"⟩).1
      ⟨some i, some e, some n, some "user_signup"⟩).1.users i = 1 ∧
    (processDelivery fresh2
      (handleUserEvent fresh1 db ⟨some i, some e, some n, some "user_signup"⟩).1
      (RawBody.valid ⟨some i, some e, some n, some "user_signup"⟩)).isOk = true := by
  refine ⟨?_, rfl⟩
  have e1 := handleUserEvent_signup_eval fresh1 i e n db
  by_cases h1 : (db.users.any fun u => u._id == i) = true
  · -- the id is already present: both applications are caught no-ops
    rw [if_pos h1] at e1
    have e2 := handleUserEvent_signup_eval fresh2 i e n db
    rw [if_pos h1] at e2
    rw [e1, e2]
    show countById db.users i = 1
    have := countById_pos_of_any db.users i h1
    omega
  · -- fresh id: the first application inserts, the second is a caught no-op
    rw [if_neg h1] at e1
    have hdoc : ((db.users ++ [(⟨i, some e, some n⟩ : ShadowUser)]).any
        fun u => u._id == i) = true := by
      simp [List.any_append]
    have e2 := handleUserEvent_signup_eval fresh2 i e n
      { db with users := db.users ++ [⟨i, some e, some n⟩] }
    rw [if_pos hdoc] at e2
    rw [e1, e2]
    show countById (db.users ++ [⟨i, some e, some n⟩]) i = 1
    have h0 : countById db.users i = 0 :=
      (countById_eq_zero_iff db.users i).2 (by simpa using h1)
    rw [countById_append, h0]
    simp [countById]

/-- Witness for C1 at a concrete store and event. -/
theorem signup_event_applied_twice_idempotent_check :
    countById (⟨[], []⟩ : PostDb).users "u1" ≤ 1 ∧
    (countById (handleUserEvent "f2"
      (handleUserEvent "f1" ⟨[], []⟩
        ⟨some "u1", some "a@b.com", some "alice", some "user_signup"⟩).1
      ⟨some "u1", some "a@b.com", some "alice", some "user_signup"⟩).1.users "u1" = 1 ∧
    (processDelivery "f2"
      (handleUserEvent "f1" ⟨[], []⟩
        ⟨some "u1", some "a@b.com", some "alice", some "user_signup"⟩).1
      (RawBody.valid ⟨some "u1", some "a@b.com", some "alice", some "user_signup"⟩)).isOk = true) :=
  ⟨by decide,
    signup_event_applied_twice_idempotent ⟨[], []⟩ "u1" "a@b.com" "alice" "f1" "f2"
      (by decide)⟩

/-- C5: applying a `user_delete` event is idempotent — under the store
invariant that the id occurs at most once, the handler never raises an
error, afterwards no shadow record with that id remains, and when no record
with that id existed the store is left exactly as it was. -/
theorem delete_event_idempotent (db : PostDb) (i fresh : String)
    (huniq : countById db.users i ≤ 1) :
    handleUserEvent fresh db ⟨some i, none, none, some "user_delete"⟩ =
      ({ db with users := removeFirstById db.users i }, false) ∧
    countById (handleUserEvent fresh db
      ⟨some i, none, none, some "user_delete"⟩).1.users i = 0 ∧
    (countById db.users i = 0 →
      (handleUserEvent fresh db ⟨some i, none, none, some "user_delete"⟩).1 = db) := by
  have heval : handleUserEvent fresh db ⟨some i, none, none, some "user_delete"⟩ =
      ({ db with users := removeFirstById db.users i }, false) := rfl
  refine ⟨heval, ?_, ?_⟩
  · rw [heval]
    exact countById_removeFirstById db.users i huniq
  · intro h0
    rw [heval]
    show ({ db with users := removeFirstById db.users i }) = db
    rw [removeFirstById_of_absent db.users i h0]

/-- Witness for C5 at a concrete store holding one unrelated record. -/
theorem delete_event_idempotent_check :
    countById (⟨[⟨"u2", some "b@c.com", some "bob"⟩], []⟩ : PostDb).users "u1" ≤ 1 ∧
    (handleUserEvent "f" ⟨[⟨"u2", some "b@c.com", some "bob"⟩], []⟩
      ⟨some "u1", none, none, some "user_delete"⟩ =
        ({ users := removeFirstById [⟨"u2", some "b@c.com", some "bob"⟩] "u1",
           posts := [] }, false) ∧
    countById (handleUserEvent "f" ⟨[⟨"u2", some "b@c.com", some "bob"⟩], []⟩
      ⟨some "u1", none, none, some "user_delete"⟩).1.users "u1" = 0 ∧
    (countById (⟨[⟨"u2", some "b@c.com", some "bob"⟩], []⟩ : PostDb).users "u1" = 0 →
      (handleUserEvent "f" ⟨[⟨"u2", some "b@c.com", some "bob"⟩], []⟩
        ⟨some "u1", none, none, some "user_delete"⟩).1 =
          ⟨[⟨"u2", some "b@c.com", some "bob"⟩], []⟩)) :=
  ⟨by decide,
    delete_event_idempotent ⟨[⟨"u2", some "b@c.com", some "bob"⟩], []⟩ "u1" "f"
      (by decide)⟩

/-- C9: the event consumer never modifies Post records — for every event it
processes (signup, delete, or anything else), the post collection is
unchanged; in particular a `user_delete` event does not cascade to the
deleted user's posts. -/
theorem consumer_never_touches_posts (fresh : String) (db : PostDb)
    (m : EventMessage) :
    (handleUserEvent fresh db m).1.posts = db.posts := by
  rcases m with ⟨uid, e, n, ev⟩
  cases ev with
  | none => rfl
  | some t =>
      by_cases hs : (t == "user_signup") = true
      · by_cases hd : ((db.users.any fun u => u._id == uid.getD fresh)) = true <;>
          simp [handleUserEvent, handleUserEventTry, userModelCreate, hs, hd]
      · by_cases hd : (t == "user_delete") = true
        · cases uid <;>
            simp [handleUserEvent, handleUserEventTry,
              userModelFindOneAndDelete, hs, hd]
        · simp [handleUserEvent, handleUserEventTry, hs, hd]

/-- C10: for every existing user id, `getUserById` answers 200 with the
entire stored document as the body — nothing is filtered, so the credential
hash field is included. -/
theorem getUserById_returns_full_document (db : List UserRecord) (i : String)
    (u : UserRecord) (h : findById db i = some u) :
    getUserById db i = ⟨200, none, some u⟩ ∧
    (getUserById db i).result.map UserRecord.password = some u.password := by
  unfold getUserById
  rw [h]
  exact ⟨rfl, rfl⟩

/-- Witness for C10: a concrete store in which the looked-up document, hash
field included, is the 200 body. -/
theorem getUserById_returns_full_document_check :
    findById [⟨"1", "a@b.com", bcryptHash "abc123!", "alice"⟩] "1" =
      some ⟨"1", "a@b.com", bcryptHash "abc123!", "alice"⟩ ∧
    (getUserById [⟨"1", "a@b.com", bcryptHash "abc123!", "alice"⟩] "1" =
      ⟨200, none, some ⟨"1", "a@b.com", bcryptHash "abc123!", "alice"⟩⟩ ∧
    (getUserById [⟨"1", "a@b.com", bcryptHash "abc123!", "alice"⟩] "1").result.map
      UserRecord.password = some (bcryptHash "abc123!")) :=
  ⟨by decide,
    getUserById_returns_full_document _ "1" _ (by decide)⟩

/-- Evaluation of `handleUserEvent` on a payload whose `event` member is
missing or carries an unknown tag: neither branch matches, the store is
untouched and no error is raised. -/
theorem handleUserEvent_unknown (fresh : String) (db : PostDb)
    (m : EventMessage)
    (hbad : m.event.all
      (fun t => !(t == "user_signup") && !(t == "user_delete")) = true) :
    handleUserEvent fresh db m = (db, false) := by
  rcases m with ⟨uid, me, mn, ev⟩
  cases ev with
  | none => rfl
  | some t =>
      simp only [Option.all_some, Bool.and_eq_true, Bool.not_eq_true'] at hbad
      simp [handleUserEvent, handleUserEventTry, hbad.1, hbad.2]

/-- C2 counterexample: a duplicate signup delivery on a store already
holding the id.  The handler's store write fails (the error is caught and
logged: second component `true`), yet the callback still acknowledges the
message — and the acknowledgement step even precedes the handler's
completion, because the callback calls `channel.ack` right after invoking
the async handler without awaiting it.  So a failed event application is
acknowledged and lost, not redelivered, refuting acknowledge-after-success. -/
theorem ack_despite_handler_failure_cex :
    processDelivery "f" ⟨[⟨"u1", some "a@b.com", some "alice"⟩], []⟩
      (RawBody.valid ⟨some "u1", some "a@b.com", some "alice",
        some "user_signup"⟩) =
      .ok ⟨⟨[⟨"u1", some "a@b.com", some "alice"⟩], []⟩, true,
        [.logReceived, .handlerStart, .ack, .handlerFinish]⟩ ∧
    consumeDeliveryTrace.indexOf ConsumeStep.ack <
      consumeDeliveryTrace.indexOf ConsumeStep.handlerFinish := by
  constructor
  · rfl
  · decide

/-- C2 (amended): for every message that parses, the consumer acknowledges
it unconditionally — the acknowledgement step strictly precedes the
handler's completion (the callback does not await the async handler), so an
event whose application fails is still acknowledged and therefore lost, not
redelivered. -/
theorem consumer_acks_without_awaiting_handler (fresh : String) (db : PostDb)
    (m : EventMessage) :
    ∃ r : DeliveryResult, processDelivery fresh db (RawBody.valid m) = .ok r ∧
      ConsumeStep.ack ∈ r.steps ∧
      r.steps.indexOf ConsumeStep.ack <
        r.steps.indexOf ConsumeStep.handlerFinish := by
  refine ⟨⟨(handleUserEvent fresh db m).1, (handleUserEvent fresh db m).2,
    consumeDeliveryTrace⟩, rfl, ?_, ?_⟩
  · show ConsumeStep.ack ∈ consumeDeliveryTrace
    decide
  · show consumeDeliveryTrace.indexOf ConsumeStep.ack <
      consumeDeliveryTrace.indexOf ConsumeStep.handlerFinish
    decide

/-- C4 counterexample: a body that is not valid JSON.  `JSON.parse` throws
inside the consume callback and nothing catches it there, so the message is
not logged-and-dropped: the exception escapes the callback (and the message
is never acknowledged), refuting the claim for the fails-to-parse case. -/
theorem malformed_body_crashes_consumer_cex :
    processDelivery "f" ⟨[], []⟩ (RawBody.invalid "not json") =
      .error "SyntaxError: Unexpected token in JSON" ∧
    (processDelivery "f" ⟨[], []⟩ (RawBody.invalid "not json")).isOk = false :=
  ⟨rfl, rfl⟩

/-- C4 (amended): a delivered payload that parses but lacks the `event`
member, or carries an unknown tag, is logged and dropped without error —
the store is unchanged, the message is acknowledged, the callback returns
normally — and a subsequent valid signup event is still processed; a body
that fails to parse, however, throws out of the callback (see the
counterexample). -/
theorem unknown_event_dropped_and_next_event_processed
    (fresh1 fresh2 i e n : String) (db : PostDb) (m : EventMessage)
    (hbad : m.event.all
      (fun t => !(t == "user_signup") && !(t == "user_delete")) = true)
    (hnew : countById db.users i = 0) :
    processDelivery fresh1 db (RawBody.valid m) =
      .ok ⟨db, false, consumeDeliveryTrace⟩ ∧
    ConsumeStep.ack ∈ consumeDeliveryTrace ∧
    processDelivery fresh2 db
      (RawBody.valid ⟨some i, some e, some n, some "user_signup"⟩) =
      .ok ⟨{ db with users := db.users ++ [⟨i, some e, some n⟩] }, false,
        consumeDeliveryTrace⟩ := by
  refine ⟨?_, by decide, ?_⟩
  · have h := handleUserEvent_unknown fresh1 db m hbad
    show Except.ok (⟨(handleUserEvent fresh1 db m).1,
      (handleUserEvent fresh1 db m).2, consumeDeliveryTrace⟩ : DeliveryResult) =
      Except.ok (⟨db, false, consumeDeliveryTrace⟩ : DeliveryResult)
    rw [h]
  · have hany : (db.users.any fun u => u._id == i) = false :=
      (countById_eq_zero_iff db.users i).1 hnew
    have e2 := handleUserEvent_signup_eval fresh2 i e n db
    rw [if_neg (by simp [hany])] at e2
    show Except.ok (⟨(handleUserEvent fresh2 db
        ⟨some i, some e, some n, some "user_signup"⟩).1,
      (handleUserEvent fresh2 db
        ⟨some i, some e, some n, some "user_signup"⟩).2,
      consumeDeliveryTrace⟩ : DeliveryResult) = _
    rw [e2]

/-- Witness for the amended C4 at a concrete store, an eventless payload and
a subsequent valid signup. -/
theorem unknown_event_dropped_and_next_event_processed_check :
    ((⟨some "u9", none, none, none⟩ : EventMessage)).event.all
      (fun t => !(t == "user_signup") && !(t == "user_delete")) = true ∧
    countById (⟨[], []⟩ : PostDb).users "u1" = 0 ∧
    (processDelivery "f1" ⟨[], []⟩
      (RawBody.valid ⟨some "u9", none, none, none⟩) =
      .ok ⟨⟨[], []⟩, false, consumeDeliveryTrace⟩ ∧
    ConsumeStep.ack ∈ consumeDeliveryTrace ∧
    processDelivery "f2" ⟨[], []⟩
      (RawBody.valid ⟨some "u1", some "a@b.com", some "alice",
        some "user_signup"⟩) =
      .ok ⟨⟨[⟨"u1", some "a@b.com", some "alice"⟩], []⟩, false,
        consumeDeliveryTrace⟩) :=
  ⟨by decide, by decide,
    unknown_event_dropped_and_next_event_processed "f1" "f2" "u1" "a@b.com"
      "alice" ⟨[], []⟩ ⟨some "u9", none, none, none⟩ (by decide) (by decide)⟩

/-- C3: in both `signup` and `deleteUser` the publish is attempted only
after the local user-store mutation has committed, never before (the effect
trace is either empty or the mutation followed by the publish attempt); and
whenever every publish on the given broker state fails, a run that reached
its mutation (nonempty trace) leaves that mutation committed while the
caller receives the generic 500 "Something went wrong". -/
theorem publish_after_commit_and_failure_leaves_mutation
    (db : List UserRecord) (broker broker2 : BrokerState) (req : SignupRequest)
    (newId uid : String) (brokerUp up2 : Bool)
    (hfail : ∀ q m, ((publishMessage brokerUp broker q m).1).isOk = false) :
    ((signup db broker2 req newId up2).trace = [] ∨
      ∃ u q m, (signup db broker2 req newId up2).trace =
        [Effect.dbCreateUser u, Effect.publishAttempt q m]) ∧
    ((deleteUser db broker2 uid up2).trace = [] ∨
      ∃ q m, (deleteUser db broker2 uid up2).trace =
        [Effect.dbDeleteUser uid, Effect.publishAttempt q m]) ∧
    ((signup db broker req newId brokerUp).trace ≠ [] →
      (∃ u, (signup db broker req newId brokerUp).db = db ++ [u]) ∧
      (signup db broker req newId brokerUp).resp.status = 500 ∧
      (signup db broker req newId brokerUp).resp.message =
        some "Something went wrong") ∧
    ((deleteUser db broker uid brokerUp).trace ≠ [] →
      (deleteUser db broker uid brokerUp).db = removeFirstUserById db uid ∧
      (deleteUser db broker uid brokerUp).resp.status = 500 ∧
      (deleteUser db broker uid brokerUp).resp.message =
        some "Something went wrong") := by
  refine ⟨?_, ?_, ?_, ?_⟩
  · rcases signup_cases db broker2 req newId up2 with
      ⟨resp, hr, _⟩ | ⟨e, hr, _⟩ | ⟨hr, _⟩ <;> rw [hr]
    · exact Or.inl rfl
    · exact Or.inr ⟨_, _, _, rfl⟩
    · exact Or.inr ⟨_, _, _, rfl⟩
  · rcases deleteUser_cases db broker2 uid up2 with
      hr | ⟨e, hr, _⟩ | ⟨hr, _⟩ <;> rw [hr]
    · exact Or.inl rfl
    · exact Or.inr ⟨_, _, rfl⟩
    · exact Or.inr ⟨_, _, rfl⟩
  · intro hne
    rcases signup_cases db broker req newId brokerUp with
      ⟨resp, hr, _⟩ | ⟨e, hr, _⟩ | ⟨hr, hp⟩
    · rw [hr] at hne
      exact absurd rfl hne
    · rw [hr]
      exact ⟨⟨signupDoc req newId, rfl⟩, rfl, rfl⟩
    · have := hfail publishQueue (signupMsg req newId)
      rw [hp] at this
      cases this
  · intro hne
    rcases deleteUser_cases db broker uid brokerUp with
      hr | ⟨e, hr, _⟩ | ⟨hr, hp⟩
    · rw [hr] at hne
      exact absurd rfl hne
    · rw [hr]
      exact ⟨rfl, rfl, rfl⟩
    · have := hfail publishQueue (deleteMsg uid)
      rw [hp] at this
      cases this

/-- Witness for C3: an empty store, a broker that is down with no cached
channel (every publish fails), a valid signup request and a delete of a
missing id. -/
theorem publish_after_commit_and_failure_leaves_mutation_check :
    (∀ q m, ((publishMessage false (⟨none, [], 0⟩ : BrokerState) q m).1).isOk =
      false) ∧
    (((signup [] ⟨none, [], 0⟩ ⟨some "a@b.com", some "abc123!", some "alice"⟩
        "id1" true).trace = [] ∨
      ∃ u q m, (signup [] ⟨none, [], 0⟩
        ⟨some "a@b.com", some "abc123!", some "alice"⟩ "id1" true).trace =
        [Effect.dbCreateUser u, Effect.publishAttempt q m]) ∧
    ((deleteUser [] ⟨none, [], 0⟩ "u7" true).trace = [] ∨
      ∃ q m, (deleteUser [] ⟨none, [], 0⟩ "u7" true).trace =
        [Effect.dbDeleteUser "u7", Effect.publishAttempt q m]) ∧
    ((signup [] ⟨none, [], 0⟩ ⟨some "a@b.com", some "abc123!", some "alice"⟩
        "id1" false).trace ≠ [] →
      (∃ u, (signup [] ⟨none, [], 0⟩
        ⟨some "a@b.com", some "abc123!", some "alice"⟩ "id1" false).db =
        [] ++ [u]) ∧
      (signup [] ⟨none, [], 0⟩ ⟨some "a@b.com", some "abc123!", some "alice"⟩
        "id1" false).resp.status = 500 ∧
      (signup [] ⟨none, [], 0⟩ ⟨some "a@b.com", some "abc123!", some "alice"⟩
        "id1" false).resp.message = some "Something went wrong") ∧
    ((deleteUser [] ⟨none, [], 0⟩ "u7" false).trace ≠ [] →
      (deleteUser [] ⟨none, [], 0⟩ "u7" false).db =
        removeFirstUserById [] "u7" ∧
      (deleteUser [] ⟨none, [], 0⟩ "u7" false).resp.status = 500 ∧
      (deleteUser [] ⟨none, [], 0⟩ "u7" false).resp.message =
        some "Something went wrong")) :=
  ⟨fun _ _ => rfl,
    publish_after_commit_and_failure_leaves_mutation [] ⟨none, [], 0⟩
      ⟨none, [], 0⟩ ⟨some "a@b.com", some "abc123!", some "alice"⟩ "id1" "u7"
      false true (fun _ _ => rfl)⟩

/-- C6: every message either controller enqueues is the serialization of an
object carrying `userId` and an `event` tag that is `"user_signup"` or
`"user_delete"`; a signup message carries exactly the created user's id,
email and name; and the queue name used by the publisher equals the queue
name the consumer subscribes to. -/
theorem published_messages_conform
    (db : List UserRecord) (broker : BrokerState) (req : SignupRequest)
    (newId uid : String) (brokerUp : Bool) (entryS entryD : String × RawBody)
    (hs : entryS ∈ (signup db broker req newId brokerUp).broker.queue)
    (hd : entryD ∈ (deleteUser db broker uid brokerUp).broker.queue) :
    (entryS ∈ broker.queue ∨
      (entryS.1 = "user_events" ∧ ∃ u : UserRecord,
        u ∈ (signup db broker req newId brokerUp).db ∧
        entryS.2 = RawBody.valid
          ⟨some u._id, some u.email, some u.name, some "user_signup"⟩)) ∧
    (entryD ∈ broker.queue ∨
      (entryD.1 = "user_events" ∧
        entryD.2 = RawBody.valid ⟨some uid, none, none, some "user_delete"⟩)) ∧
    publishQueue = consumeQueue := by
  refine ⟨?_, ?_, rfl⟩
  · rcases signup_cases db broker req newId brokerUp with
      ⟨resp, hr, _⟩ | ⟨e, hr, _⟩ | ⟨hr, _⟩
    · rw [hr] at hs
      exact Or.inl hs
    all_goals
      rw [hr] at hs
      rcases publishMessage_queue_sub brokerUp broker publishQueue
        (signupMsg req newId) entryS hs with hold | hnew
      · exact Or.inl hold
      · refine Or.inr ⟨by subst hnew; rfl, signupDoc req newId, ?_,
          by subst hnew; rfl⟩
        rw [hr]
        exact List.mem_append_right db (List.mem_singleton.mpr rfl)
  · rcases deleteUser_cases db broker uid brokerUp with
      hr | ⟨e, hr, _⟩ | ⟨hr, _⟩
    · rw [hr] at hd
      exact Or.inl hd
    all_goals
      rw [hr] at hd
      rcases publishMessage_queue_sub brokerUp broker publishQueue
        (deleteMsg uid) entryD hd with hold | hnew
      · exact Or.inl hold
      · exact Or.inr ⟨by subst hnew; rfl, by subst hnew; rfl⟩

/-- Witness for C6: a successful signup and delete on a connected broker;
the enqueued entries are checked against the published shapes. -/
theorem published_messages_conform_check :
    (("user_events",
      RawBody.valid ⟨some "id1", some "a@b.com", some "alice",
        some "user_signup"⟩) ∈
      (signup [⟨"u7", "b@c.com", "h", "bob"⟩] ⟨some ⟨true⟩, [], 1⟩
        ⟨some "a@b.com", some "abc123!", some "alice"⟩ "id1"
        true).broker.queue) ∧
    (("user_events",
      RawBody.valid ⟨some "u7", none, none, some "user_delete"⟩) ∈
      (deleteUser [⟨"u7", "b@c.com", "h", "bob"⟩] ⟨some ⟨true⟩, [], 1⟩ "u7"
        true).broker.queue) ∧
    ((("user_events",
      RawBody.valid ⟨some "id1", some "a@b.com", some "alice",
        some "user_signup"⟩) ∈ (⟨some ⟨true⟩, [], 1⟩ : BrokerState).queue ∨
      (("user_events",
        RawBody.valid ⟨some "id1", some "a@b.com", some "alice",
          some "user_signup"⟩).1 = "user_events" ∧ ∃ u : UserRecord,
        u ∈ (signup [⟨"u7", "b@c.com", "h", "bob"⟩] ⟨some ⟨true⟩, [], 1⟩
          ⟨some "a@b.com", some "abc123!", some "alice"⟩ "id1" true).db ∧
        ("user_events",
          RawBody.valid ⟨some "id1", some "a@b.com", some "alice",
            some "user_signup"⟩).2 = RawBody.valid
          ⟨some u._id, some u.email, some u.name, some "user_signup"⟩)) ∧
    ((("user_events",
      RawBody.valid ⟨some "u7", none, none, some "user_delete"⟩) ∈
        (⟨some ⟨true⟩, [], 1⟩ : BrokerState).queue ∨
      (("user_events",
        RawBody.valid ⟨some "u7", none, none, some "user_delete"⟩).1 =
          "user_events" ∧
        ("user_events",
          RawBody.valid ⟨some "u7", none, none, some "user_delete"⟩).2 =
          RawBody.valid ⟨some "u7", none, none, some "user_delete"⟩)) ∧
    publishQueue = consumeQueue)) :=
  ⟨by decide, by decide,
    published_messages_conform [⟨"u7", "b@c.com", "h", "bob"⟩]
      ⟨some ⟨true⟩, [], 1⟩
      ⟨some "a@b.com", some "abc123!", some "alice"⟩ "id1" "u7" true
      ("user_events",
        RawBody.valid ⟨some "id1", some "a@b.com", some "alice",
          some "user_signup"⟩)
      ("user_events", RawBody.valid ⟨some "u7", none, none, some "user_delete"⟩)
      (by decide) (by decide)⟩

/-- C7 counterexample: a cached but unusable channel on a reachable broker.
The publish throws "Channel closed" and the state is returned untouched: no
fresh connection is opened (the connection count stays 5), the dead channel
stays cached, and nothing is enqueued — refuting "a fresh connection and
channel are established transparently before the message is published". -/
theorem stale_channel_not_replaced_cex :
    publishMessage true ⟨some ⟨false⟩, [], 5⟩ "user_events"
      ⟨some "u1", none, none, some "user_delete"⟩ =
      (.error "Channel closed", ⟨some ⟨false⟩, [], 5⟩) := rfl

/-- C7 (amended): the broker connection is lazily established on the first
publish (exactly when no channel is cached) and the resulting channel is
cached for reuse; but an unusable cached channel is never replaced — the
publish then simply fails, enqueuing nothing, and a fresh connection is
opened only when no channel has been created at all. -/
theorem publish_connection_discipline (st : BrokerState) (q : String)
    (m : EventMessage) (brokerUp : Bool) :
    (publishMessage brokerUp st q m).2.connectCount =
      (if st.channel.isNone && brokerUp then st.connectCount + 1
       else st.connectCount) ∧
    (publishMessage brokerUp st q m).2.channel =
      (if st.channel.isNone && brokerUp then some ⟨true⟩ else st.channel) ∧
    (publishMessage brokerUp st q m).2.queue =
      (if st.channel.isNone && brokerUp ||
          (st.channel.map Channel.usable).getD false then
        st.queue ++ [(q, RawBody.valid m)]
       else st.queue) ∧
    (publishMessage brokerUp st q m).1.isOk =
      (st.channel.isNone && brokerUp ||
        (st.channel.map Channel.usable).getD false) := by
  rcases st with ⟨ch, qs, cc⟩
  cases ch with
  | none =>
      cases brokerUp <;>
        simp [publishMessage, connectQueue, sendToQueue, Except.isOk, Except.toBool]
  | some c =>
      rcases c with ⟨u⟩
      cases u <;>
        simp [publishMessage, connectQueue, sendToQueue, Except.isOk, Except.toBool]

/-- C8: a signup request that fails validation (absent or malformed email,
name or password) or conflicts on a duplicate email or duplicate name is
rejected with a 400 carrying a descriptive message before any user-store
write and before any publish: the store, the broker state and the effect
trace are unchanged. -/
theorem signup_rejects_invalid_before_any_write
    (db : List UserRecord) (broker : BrokerState) (req : SignupRequest)
    (newId : String) (brokerUp : Bool)
    (h : signupEmailOk req.email = false ∨ isValidName req.name = false ∨
      isValidPassword req.password = false ∨
      (∃ u ∈ db, some u.email = req.email) ∨
      (∃ u ∈ db, some u.name = req.name)) :
    (signup db broker req newId brokerUp).db = db ∧
    (signup db broker req newId brokerUp).broker = broker ∧
    (signup db broker req newId brokerUp).resp.status = 400 ∧
    (signup db broker req newId brokerUp).resp.message.isSome = true ∧
    (signup db broker req newId brokerUp).trace = [] := by
  by_cases h1 : signupEmailOk req.email = true
  case neg =>
    rw [signup_reject_email db broker req newId brokerUp (by simpa using h1)]
    exact ⟨rfl, rfl, rfl, rfl, rfl⟩
  by_cases h2 : isValidName req.name = true
  case neg =>
    rw [signup_reject_name db broker req newId brokerUp h1 (by simpa using h2)]
    exact ⟨rfl, rfl, rfl, rfl, rfl⟩
  by_cases h3 : isValidPassword req.password = true
  case neg =>
    rw [signup_reject_password db broker req newId brokerUp h1 h2
      (by simpa using h3)]
    exact ⟨rfl, rfl, rfl, rfl, rfl⟩
  cases hfe : findOneByEmail db (req.email.getD "") with
  | some u =>
      rw [signup_reject_dup_email db broker req newId brokerUp u h1 h2 h3 hfe]
      exact ⟨rfl, rfl, rfl, rfl, rfl⟩
  | none =>
  cases hfn : findOneByName db (req.name.getD "") with
  | some u =>
      rw [signup_reject_dup_name db broker req newId brokerUp u h1 h2 h3
        hfe hfn]
      exact ⟨rfl, rfl, rfl, rfl, rfl⟩
  | none =>
      -- every rejection condition of `h` is refuted on this path
      exfalso
      rcases h with h | h | h | ⟨u, hu, he⟩ | ⟨u, hu, hn⟩
      · rw [h1] at h
        exact absurd h (by decide)
      · rw [h2] at h
        exact absurd h (by decide)
      · rw [h3] at h
        exact absurd h (by decide)
      · have hgd : req.email.getD "" = u.email := by
          rw [← he]
          rfl
        rw [hgd] at hfe
        simp [findOneByEmail, List.find?_eq_none] at hfe
        exact (hfe u hu) rfl
      · have hgd : req.name.getD "" = u.name := by
          rw [← hn]
          rfl
        rw [hgd] at hfn
        simp [findOneByName, List.find?_eq_none] at hfn
        exact (hfn u hu) rfl

/-- Witness for C8: a request whose email has no at sign is rejected with a
400 and nothing is written or published. -/
theorem signup_rejects_invalid_before_any_write_check :
    (signupEmailOk (some "nope") = false ∨
      isValidName (some "alice") = false ∨
      isValidPassword (some "abc123!") = false ∨
      (∃ u ∈ ([] : List UserRecord), some u.email = some "nope") ∨
      (∃ u ∈ ([] : List UserRecord), some u.name = some "alice")) ∧
    ((signup [] ⟨none, [], 0⟩ ⟨some "nope", some "abc123!", some "alice"⟩
        "id1" true).db = [] ∧
    (signup [] ⟨none, [], 0⟩ ⟨some "nope", some "abc123!", some "alice"⟩
        "id1" true).broker = ⟨none, [], 0⟩ ∧
    (signup [] ⟨none, [], 0⟩ ⟨some "nope", some "abc123!", some "alice"⟩
        "id1" true).resp.status = 400 ∧
    (signup [] ⟨none, [], 0⟩ ⟨some "nope", some "abc123!", some "alice"⟩
        "id1" true).resp.message.isSome = true ∧
    (signup [] ⟨none, [], 0⟩ ⟨some "nope", some "abc123!", some "alice"⟩
        "id1" true).trace = []) :=
  ⟨Or.inl (by decide),
    signup_rejects_invalid_before_any_write [] ⟨none, [], 0⟩
      ⟨some "nope", some "abc123!", some "alice"⟩ "id1" true
      (Or.inl (by decide))⟩

end Microservices
